import Mathlib

/-!
Shallow embedding of `src/main.cpp` of the attiny85_time_switch repository.

The firmware is a wake-driven controller: `setup` derives an immutable
configuration from two selector jumpers and an optional EEPROM-stored clock
calibration, then `loop` runs once per watchdog wake (one "tick"): it
increments two 16-bit counters, periodically samples the battery while the
load is enabled (latching the load off on an undervoltage breach), and —
when the full feature set is selected and the latch is clear — steps the
duty-cycle state machine.

Machine integers are modelled as `Nat` with explicit reduction modulo
`2^16` / `2^32` exactly where the C code's fixed-width arithmetic can wrap.
External inputs (EEPROM bytes, the averaged ADC battery sample of each tick,
the two jumper readings) are parameters: the EEPROM is a byte map
`Nat → Nat` (each read reduced mod 256, matching the `uint8_t` return of
`EEPROM.read`), and each call of `loop` receives the averaged sample that
`read_battery_voltage` would return on that tick.
-/

set_option maxRecDepth 4000
set_option linter.unreachableTactic false
set_option linter.unusedTactic false

namespace AttinyTimeSwitch

/-- Wrap bound of `uint16_t` values. -/
def UINT16_MOD : Nat := 65536

/-- Wrap bound of `uint32_t` values. -/
def UINT32_MOD : Nat := 4294967296

/-- Battery measurement period in wake cycles (`TIMING_CYCLES_BATTERY_MEASUREMENT`). -/
def TIMING_CYCLES_BATTERY_MEASUREMENT : Nat := 110

/-- Raw ADC undervoltage threshold for a 12V device (`ADC_BATTERY_THRESHOLD_12v`). -/
def ADC_BATTERY_THRESHOLD_12v : Nat := 721

/-- Raw ADC undervoltage threshold for a 24V device (`ADC_BATTERY_THRESHOLD_24v`). -/
def ADC_BATTERY_THRESHOLD_24v : Nat := 726

/-- Wake cycles with the load on, 12V device (`TIMING_CYCLES_LOAD_ON_12V`). -/
def TIMING_CYCLES_LOAD_ON_12V : Nat := 7031

/-- Wake cycles with the load off, 12V device (`TIMING_CYCLES_LOAD_OFF_12V`). -/
def TIMING_CYCLES_LOAD_OFF_12V : Nat := 3516

/-- Wake cycles with the load on, 24V device (`TIMING_CYCLES_LOAD_ON_24V`). -/
def TIMING_CYCLES_LOAD_ON_24V : Nat := 8789

/-- Wake cycles with the load off, 24V device (`TIMING_CYCLES_LOAD_OFF_24V`). -/
def TIMING_CYCLES_LOAD_OFF_24V : Nat := 1758

/-- Magic byte that must be present at EEPROM address 4 for calibration (`0xCD`). -/
def EEPROM_CLOCK_CALIB_MAGIC_NUMBER : Nat := 0xCD

/-- Nominal sleep clock frequency in Hz (`SLEEP_CLOCK_VALUE_HZ`). -/
def SLEEP_CLOCK_VALUE_HZ : Nat := 128000

/-- Maximum accepted deviation from the nominal sleep clock (`SLEEP_CLOCK_DEVIATION_MAX_HZ`). -/
def SLEEP_CLOCK_DEVIATION_MAX_HZ : Nat := 30000

/-- Value of the C enum constant `STATE_LOAD_ON` (first enumerator, 0). -/
def STATE_LOAD_ON : Nat := 0

/-- Value of the C enum constant `STATE_LOAD_OFF` (second enumerator, 1). -/
def STATE_LOAD_OFF : Nat := 1

/-- Embeds `read_clock_calibration`: assemble a big-endian 32-bit value from
EEPROM bytes 0..3 and map an all-ones (erased) read to 0. -/
def read_clock_calibration (eeprom : Nat → Nat) : Nat :=
  let clock_calib : Nat :=
    ((eeprom 0 % 256) <<< 24) ||| ((eeprom 1 % 256) <<< 16) |||
    ((eeprom 2 % 256) <<< 8) ||| (eeprom 3 % 256)
  if clock_calib = 0xFFFFFFFF then 0 else clock_calib

/-- Embeds `apply_clock_calibration`: discard calibration values outside
`[98000, 158000]` (return the uncalibrated value); otherwise compute
`clock_calibration * uncalibrated_value / 128000` in `uint32_t` arithmetic,
so the product wraps modulo `2^32` before the truncating division. -/
def apply_clock_calibration (clock_calibration uncalibrated_value : Nat) : Nat :=
  if clock_calibration < SLEEP_CLOCK_VALUE_HZ - SLEEP_CLOCK_DEVIATION_MAX_HZ ∨
      clock_calibration > SLEEP_CLOCK_VALUE_HZ + SLEEP_CLOCK_DEVIATION_MAX_HZ then
    uncalibrated_value
  else
    clock_calibration * uncalibrated_value % UINT32_MOD / SLEEP_CLOCK_VALUE_HZ

/-- Embeds `clock_calibration_present`: the magic byte at EEPROM address 4. -/
def clock_calibration_present (eeprom : Nat → Nat) : Bool :=
  eeprom 4 % 256 == EEPROM_CLOCK_CALIB_MAGIC_NUMBER

/-- The four file-scope configuration variables set by `setup` and read by
`loop`: `all_features_activated`, `timing_cycles_load_on`,
`timing_cycles_load_off`, `undervoltage_adc_threshold` (the last three are
`uint16_t`). `loop` only reads them, so they are packaged as an immutable
record threaded into each step. -/
structure Config where
  all_features_activated : Bool
  timing_cycles_load_on : Nat
  timing_cycles_load_off : Nat
  undervoltage_adc_threshold : Nat
deriving DecidableEq

/-- The mutable run state: the four `static` locals of `loop`
(`wakeup_count_load_feature`, `wakeup_count_undervoltage_protection`,
`undervoltage_protection_triggered`, `wake_state`) plus the load actuator
pin level (`enable_load` / `is_load_enabled`). `wake_state` is kept as the
raw `Nat` value of the C enum so that the defensive `default` branch of the
switch is representable. -/
structure SystemState where
  wakeup_count_load_feature : Nat
  wakeup_count_undervoltage_protection : Nat
  undervoltage_protection_triggered : Bool
  wake_state : Nat
  load_enabled : Bool
deriving DecidableEq

/-- Embeds `load_timing_activated`: `all_features_activated == true`. -/
def load_timing_activated (cfg : Config) : Bool :=
  cfg.all_features_activated == true

/-- Embeds `setup`: derive the configuration from the EEPROM contents and
the two resolved jumper booleans (`sel_12_24V` true = 12V class,
`feature_sel` true = all features), and produce the initial run state
(counters 0, latch clear, `wake_state = STATE_LOAD_ON`, load enabled by the
final `enable_load(true)`). Assignments to the `uint16_t` timing variables
reduce mod `2^16` as the C implicit conversion does. -/
def setup (eeprom : Nat → Nat) (sel_12_24V feature_sel : Bool) :
    Config × SystemState :=
  let clock_calibration := read_clock_calibration eeprom
  let all_features_activated := feature_sel
  let timing_cycles_load_on :=
    if sel_12_24V = true then TIMING_CYCLES_LOAD_ON_12V else TIMING_CYCLES_LOAD_ON_24V
  let timing_cycles_load_off :=
    if sel_12_24V = true then TIMING_CYCLES_LOAD_OFF_12V else TIMING_CYCLES_LOAD_OFF_24V
  let undervoltage_adc_threshold :=
    if sel_12_24V = true then ADC_BATTERY_THRESHOLD_12v else ADC_BATTERY_THRESHOLD_24v
  let timing_cycles_load_on :=
    if clock_calibration_present eeprom then
      apply_clock_calibration clock_calibration timing_cycles_load_on % UINT16_MOD
    else timing_cycles_load_on
  let timing_cycles_load_off :=
    if clock_calibration_present eeprom then
      apply_clock_calibration clock_calibration timing_cycles_load_off % UINT16_MOD
    else timing_cycles_load_off
  (⟨all_features_activated, timing_cycles_load_on, timing_cycles_load_off,
    undervoltage_adc_threshold⟩,
   ⟨0, 0, false, STATE_LOAD_ON, true⟩)

/-- The state of `loop`'s statics at first entry, with the load enabled by
`setup`: both counters 0, latch clear, `wake_state = STATE_LOAD_ON`. -/
def initState : SystemState := ⟨0, 0, false, STATE_LOAD_ON, true⟩

/-- The two `++` statements of `loop` right after wakeup: both `uint16_t`
counters increment, wrapping mod `2^16`. -/
def tick_counters (s : SystemState) : SystemState :=
  { s with
    wakeup_count_load_feature := (s.wakeup_count_load_feature + 1) % UINT16_MOD
    wakeup_count_undervoltage_protection :=
      (s.wakeup_count_undervoltage_protection + 1) % UINT16_MOD }

/-- Condition of the battery-measurement branch of `loop`
(`is_load_enabled() && wakeup_count_undervoltage_protection >= 110`),
evaluated on the post-increment state. -/
def battery_measurement_due (s : SystemState) : Bool :=
  s.load_enabled &&
    decide (s.wakeup_count_undervoltage_protection ≥ TIMING_CYCLES_BATTERY_MEASUREMENT)

/-- The battery-measurement branch of `loop`: when due, reset the sampling
counter to 0, then invoke `read_battery_voltage` (its averaged return value
on this tick is the parameter `sample`); on a strict breach of the
threshold, disable the load and set the latch. -/
def undervoltage_guard (cfg : Config) (sample : Nat) (s : SystemState) : SystemState :=
  if battery_measurement_due s then
    let t : SystemState := { s with wakeup_count_undervoltage_protection := 0 }
    if sample < cfg.undervoltage_adc_threshold then
      { t with load_enabled := false, undervoltage_protection_triggered := true }
    else t
  else s

/-- The `switch (wake_state)` block of `loop` (the duty-cycle state
machine), exactly as in the source: thresholds use `>=`, the counter resets
to 0 on a transition, and the `default` branch only rewrites the state tag. -/
def duty_cycle_step (cfg : Config) (s : SystemState) : SystemState :=
  if s.wake_state = STATE_LOAD_ON then
    if s.wakeup_count_load_feature ≥ cfg.timing_cycles_load_on then
      { s with wakeup_count_load_feature := 0, load_enabled := false,
               wake_state := STATE_LOAD_OFF }
    else s
  else if s.wake_state = STATE_LOAD_OFF then
    if s.wakeup_count_load_feature ≥ cfg.timing_cycles_load_off then
      { s with wakeup_count_load_feature := 0, load_enabled := true,
               wake_state := STATE_LOAD_ON }
    else s
  else
    { s with wake_state := STATE_LOAD_OFF }

/-- Embeds one full iteration of `loop` (one wake tick): increment both
counters, run the battery-measurement branch, then — if
`load_timing_activated() && !undervoltage_protection_triggered` — step the
duty-cycle state machine. -/
def loopStep (cfg : Config) (sample : Nat) (s : SystemState) : SystemState :=
  let s1 := tick_counters s
  let s2 := undervoltage_guard cfg sample s1
  if load_timing_activated cfg && !s2.undervoltage_protection_triggered then
    duty_cycle_step cfg s2
  else s2

/-- Run `loop` once per element of `samples`; the k-th element is the
averaged battery sample `read_battery_voltage` would return on tick k (it
is ignored on ticks where no measurement happens). -/
def run (cfg : Config) (samples : List Nat) (s : SystemState) : SystemState :=
  samples.foldl (fun t x => loopStep cfg x t) s

/-- Run `loop` for `n` ticks with the same averaged battery sample on every
tick. -/
def runN (cfg : Config) (sample n : Nat) (s : SystemState) : SystemState :=
  match n with
  | 0 => s
  | m + 1 => loopStep cfg sample (runN cfg sample m s)

/-- Configuration produced by `setup` for a 12V device, full feature set,
no calibration marker present. -/
def cfgV12 : Config := ⟨true, 7031, 3516, 721⟩

/-- Exactly the condition under which the iteration of `loop` that starts
from state `s` calls `read_battery_voltage` (and hence touches the ADC):
the battery-measurement branch guard, evaluated after the counter
increments. -/
def invokes_battery_read (s : SystemState) : Bool :=
  battery_measurement_due (tick_counters s)

/-- One tick of the sampling counter while the load is on and no sample
breaches: increment mod `2^16`, resetting to 0 when the cadence fires. -/
def uvNext (u : Nat) : Nat :=
  if (u + 1) % UINT16_MOD ≥ TIMING_CYCLES_BATTERY_MEASUREMENT then 0
  else (u + 1) % UINT16_MOD

/-- The sampling counter after `k` such ticks starting from 0. -/
def uvRun : Nat → Nat
  | 0 => 0
  | k + 1 => uvNext (uvRun k)

/-- Invariant: while the latch is clear, the duty state tag and the load
actuator agree. -/
def tag_matches_load (s : SystemState) : Prop :=
  s.undervoltage_protection_triggered = false →
    (s.wake_state = STATE_LOAD_ON ↔ s.load_enabled = true)

example : (setup (fun _ => 0) true true).1 = cfgV12 := by decide
example : (setup (fun _ => 0) true true).2 = initState := by decide
example : apply_clock_calibration 140000 7031 = 7690 := by decide
example : apply_clock_calibration 97999 7031 = 7031 := by decide
example : apply_clock_calibration 128000 33555 = 0 := by decide
example : read_clock_calibration (fun _ => 255) = 0 := by decide
example : (runN cfgV12 1023 3 initState).wakeup_count_load_feature = 3 := by decide
example : (runN cfgV12 1023 111 initState).wakeup_count_undervoltage_protection = 1 := by
  decide

/-! ### Helper lemmas about the guard and the duty-cycle step -/

lemma tick_counters_load (s : SystemState) :
    (tick_counters s).load_enabled = s.load_enabled := rfl

lemma tick_counters_trig (s : SystemState) :
    (tick_counters s).undervoltage_protection_triggered =
      s.undervoltage_protection_triggered := rfl

lemma tick_counters_wake (s : SystemState) :
    (tick_counters s).wake_state = s.wake_state := rfl

/-- Unfolding equation for `loopStep` with the intermediate `let`s reduced. -/
lemma loopStep_eq (cfg : Config) (x : Nat) (s : SystemState) :
    loopStep cfg x s =
      if load_timing_activated cfg &&
          !(undervoltage_guard cfg x (tick_counters s)).undervoltage_protection_triggered
          then
        duty_cycle_step cfg (undervoltage_guard cfg x (tick_counters s))
      else undervoltage_guard cfg x (tick_counters s) := rfl

/-- Unfolding equation for `undervoltage_guard` with the intermediate `let`
reduced and the nested record updates flattened. -/
lemma undervoltage_guard_eq (cfg : Config) (x : Nat) (s : SystemState) :
    undervoltage_guard cfg x s =
      if battery_measurement_due s then
        if x < cfg.undervoltage_adc_threshold then
          { s with
            wakeup_count_undervoltage_protection := 0
            load_enabled := false
            undervoltage_protection_triggered := true }
        else { s with wakeup_count_undervoltage_protection := 0 }
      else s := by
  unfold undervoltage_guard
  split_ifs <;> rfl

lemma guard_wake (cfg : Config) (x : Nat) (t : SystemState) :
    (undervoltage_guard cfg x t).wake_state = t.wake_state := by
  unfold undervoltage_guard
  split_ifs <;> rfl

lemma guard_count_load (cfg : Config) (x : Nat) (t : SystemState) :
    (undervoltage_guard cfg x t).wakeup_count_load_feature =
      t.wakeup_count_load_feature := by
  unfold undervoltage_guard
  split_ifs <;> rfl

lemma guard_untriggered (cfg : Config) (x : Nat) (t : SystemState)
    (h : (undervoltage_guard cfg x t).undervoltage_protection_triggered = false) :
    t.undervoltage_protection_triggered = false ∧
      (undervoltage_guard cfg x t).load_enabled = t.load_enabled := by
  unfold undervoltage_guard at h ⊢
  split_ifs at h ⊢ <;> simp_all

lemma guard_no_breach (cfg : Config) (x : Nat) (t : SystemState)
    (hx : cfg.undervoltage_adc_threshold ≤ x) :
    (undervoltage_guard cfg x t).load_enabled = t.load_enabled ∧
      (undervoltage_guard cfg x t).undervoltage_protection_triggered =
        t.undervoltage_protection_triggered := by
  unfold undervoltage_guard
  split_ifs with h1 h2
  · omega
  · exact ⟨rfl, rfl⟩
  · exact ⟨rfl, rfl⟩

lemma duty_count_uv (cfg : Config) (t : SystemState) :
    (duty_cycle_step cfg t).wakeup_count_undervoltage_protection =
      t.wakeup_count_undervoltage_protection := by
  unfold duty_cycle_step
  split_ifs <;> rfl

lemma duty_trig (cfg : Config) (t : SystemState) :
    (duty_cycle_step cfg t).undervoltage_protection_triggered =
      t.undervoltage_protection_triggered := by
  unfold duty_cycle_step
  split_ifs <;> rfl

/-- On a latched state with the load already off, one iteration of `loop`
only increments the two counters: the measurement branch needs the load
enabled and the duty-cycle block needs the latch clear. -/
lemma loopStep_latched (cfg : Config) (x : Nat) (s : SystemState)
    (ht : s.undervoltage_protection_triggered = true)
    (hl : s.load_enabled = false) :
    loopStep cfg x s = tick_counters s := by
  unfold loopStep undervoltage_guard battery_measurement_due
  simp [tick_counters_load, tick_counters_trig, hl, ht]

/-- A latched-and-off state stays latched and off under any further run. -/
lemma run_latched (cfg : Config) (samples : List Nat) (s : SystemState)
    (ht : s.undervoltage_protection_triggered = true)
    (hl : s.load_enabled = false) :
    (run cfg samples s).undervoltage_protection_triggered = true ∧
      (run cfg samples s).load_enabled = false := by
  induction samples generalizing s with
  | nil => exact ⟨ht, hl⟩
  | cons x xs ih =>
      have hstep := loopStep_latched cfg x s ht hl
      show (run cfg xs (loopStep cfg x s)).undervoltage_protection_triggered = true ∧
        (run cfg xs (loopStep cfg x s)).load_enabled = false
      rw [hstep]
      exact ih (tick_counters s) (by rw [tick_counters_trig, ht]) (by rw [tick_counters_load, hl])

/-- When the measurement is due and the sample breaches the threshold, the
iteration leaves the new latched state: latch set, load off, sampling
counter 0, duty-cycle block skipped. -/
lemma loopStep_breach (cfg : Config) (x : Nat) (s : SystemState)
    (hdue : battery_measurement_due (tick_counters s) = true)
    (hx : x < cfg.undervoltage_adc_threshold) :
    loopStep cfg x s =
      { tick_counters s with
        wakeup_count_undervoltage_protection := 0
        load_enabled := false
        undervoltage_protection_triggered := true } := by
  unfold loopStep undervoltage_guard
  simp [hdue, hx]

/-! ### C3: apply_clock_calibration -/

/-- Counterexample to C3 as stated: `c = 128000` is inside the accepted
range, yet at `n = 33555` the `uint32_t` product wraps modulo `2^32`
(128000 * 33555 = 4295040000 ≥ 2^32), so the code returns 0 while
`floor(c*n/128000) = 33555`. -/
theorem apply_clock_calibration_overflow_counterexample :
    98000 ≤ 128000 ∧ 128000 ≤ 158000 ∧
      apply_clock_calibration 128000 33555 = 0 ∧
      128000 * 33555 / 128000 = 33555 ∧
      apply_clock_calibration 128000 33555 ≠ 128000 * 33555 / 128000 := by
  refine ⟨by norm_num, by norm_num, by decide, by norm_num, ?_⟩
  decide

/-- C3 (amended): for `c` in `[98000, 158000]` the code computes
`(c * n mod 2^32) / 128000` — which agrees with the claimed
`floor(c * n / 128000)` exactly when the `uint32_t` product does not wrap,
in particular for every `n ≤ 27183` (covering both nominal tick counts) —
and for `c` outside that range it returns `n` unchanged. -/
theorem apply_clock_calibration_spec (c n : Nat) :
    (98000 ≤ c → c ≤ 158000 →
      apply_clock_calibration c n = c * n % UINT32_MOD / 128000) ∧
    (98000 ≤ c → c ≤ 158000 → c * n < UINT32_MOD →
      apply_clock_calibration c n = c * n / 128000) ∧
    (c < 98000 ∨ 158000 < c → apply_clock_calibration c n = n) := by
  unfold apply_clock_calibration SLEEP_CLOCK_VALUE_HZ SLEEP_CLOCK_DEVIATION_MAX_HZ
  refine ⟨?_, ?_, ?_⟩ <;> intros <;> split_ifs <;>
    first
      | rfl
      | omega
      | (rw [Nat.mod_eq_of_lt] ; omega)

/-- Witness for C3's amended theorem at the spec's own worked example:
`apply(140000, 7031) = 140000 * 7031 / 128000 = 7690`. -/
theorem apply_clock_calibration_spec_witness :
    apply_clock_calibration 140000 7031 = 140000 * 7031 / 128000 ∧
      apply_clock_calibration 140000 7031 = 7690 :=
  ⟨(apply_clock_calibration_spec 140000 7031).2.1 (by norm_num) (by norm_num)
    (by norm_num [UINT32_MOD]), by decide⟩

/-! ### C7: the defensive default branch -/

/-- C7: on any state whose `wake_state` is neither `STATE_LOAD_ON` nor
`STATE_LOAD_OFF`, the duty-cycle switch takes the `default` branch, which
rewrites only the state tag to `STATE_LOAD_OFF`: the load output, both
counters and the latch are untouched (no `enable_load` call occurs). -/
theorem duty_default_branch_frame (cfg : Config) (s : SystemState)
    (h0 : s.wake_state ≠ STATE_LOAD_ON) (h1 : s.wake_state ≠ STATE_LOAD_OFF) :
    duty_cycle_step cfg s = { s with wake_state := STATE_LOAD_OFF } := by
  unfold duty_cycle_step
  simp [h0, h1]

/-- Witness for C7 at the concrete corrupted tag value 2 with the load
reading enabled. -/
theorem duty_default_branch_frame_witness :
    duty_cycle_step cfgV12 ⟨3, 4, false, 2, true⟩ = ⟨3, 4, false, STATE_LOAD_OFF, true⟩ :=
  duty_default_branch_frame cfgV12 ⟨3, 4, false, 2, true⟩ (by decide) (by decide)

/-! ### C8: erased calibration field -/

/-- C8: when EEPROM bytes 0..3 all read back 0xFF (erased), the assembled
word is 0xFFFFFFFF and `read_clock_calibration` maps it to 0; 0 lies below
the accepted range `[98000, 158000]`, so `apply_clock_calibration` discards
it and every nominal value passes through unchanged — hence `setup` uses the
nominal tick counts whatever the magic marker byte at address 4 reads
(in particular even when it matches `0xCD`). -/
theorem erased_calibration_identity (eeprom : Nat → Nat) (sel feat : Bool)
    (h0 : eeprom 0 % 256 = 255) (h1 : eeprom 1 % 256 = 255)
    (h2 : eeprom 2 % 256 = 255) (h3 : eeprom 3 % 256 = 255) :
    read_clock_calibration eeprom = 0 ∧
      read_clock_calibration eeprom < 98000 ∧
      (∀ n, apply_clock_calibration (read_clock_calibration eeprom) n = n) ∧
      (setup eeprom sel feat).1.timing_cycles_load_on =
        (if sel = true then TIMING_CYCLES_LOAD_ON_12V else TIMING_CYCLES_LOAD_ON_24V) ∧
      (setup eeprom sel feat).1.timing_cycles_load_off =
        (if sel = true then TIMING_CYCLES_LOAD_OFF_12V else TIMING_CYCLES_LOAD_OFF_24V) := by
  have hread : read_clock_calibration eeprom = 0 := by
    unfold read_clock_calibration
    rw [h0, h1, h2, h3]
    decide
  have happ : ∀ n, apply_clock_calibration 0 n = n := by
    intro n
    unfold apply_clock_calibration SLEEP_CLOCK_VALUE_HZ SLEEP_CLOCK_DEVIATION_MAX_HZ
    norm_num
  refine ⟨hread, by omega, by rw [hread]; exact happ, ?_, ?_⟩ <;>
    · unfold setup
      rw [hread]
      rcases sel <;> by_cases hp : clock_calibration_present eeprom <;>
        simp [hp, happ, TIMING_CYCLES_LOAD_ON_12V, TIMING_CYCLES_LOAD_ON_24V,
          TIMING_CYCLES_LOAD_OFF_12V, TIMING_CYCLES_LOAD_OFF_24V, UINT16_MOD]

/-- Witness for C8 at the concrete fully-erased EEPROM (every byte 0xFF, so
the magic byte does not match here; byte 4 is unconstrained in the theorem). -/
theorem erased_calibration_identity_witness :
    read_clock_calibration (fun _ => 255) = 0 ∧
      read_clock_calibration (fun _ => 255) < 98000 ∧
      (∀ n, apply_clock_calibration (read_clock_calibration (fun _ => 255)) n = n) ∧
      (setup (fun _ => 255) true true).1.timing_cycles_load_on =
        (if true = true then TIMING_CYCLES_LOAD_ON_12V else TIMING_CYCLES_LOAD_ON_24V) ∧
      (setup (fun _ => 255) true true).1.timing_cycles_load_off =
        (if true = true then TIMING_CYCLES_LOAD_OFF_12V else TIMING_CYCLES_LOAD_OFF_24V) :=
  erased_calibration_identity (fun _ => 255) true true rfl rfl rfl rfl

/-! ### C4: configuration derivation in setup -/

/-- Calibrating either nominal tick count never overflows `uint16_t`: for
`n ≤ 8789` (the largest nominal count) the result of
`apply_clock_calibration` is below `2^16`, because an in-range calibration
is at most 158000 and `158000 * 8789 / 128000 = 10848`. -/
lemma apply_clock_calibration_lt (c n : Nat) (hn : n ≤ 8789) :
    apply_clock_calibration c n < UINT16_MOD := by
  unfold apply_clock_calibration SLEEP_CLOCK_VALUE_HZ SLEEP_CLOCK_DEVIATION_MAX_HZ UINT16_MOD
  split_ifs with h
  · omega
  · push_neg at h
    have hc : c ≤ 158000 := by omega
    have hmul : c * n ≤ 1388662000 := by
      calc c * n ≤ 158000 * 8789 := Nat.mul_le_mul hc hn
        _ = 1388662000 := by norm_num
    have hmod : c * n % UINT32_MOD = c * n := Nat.mod_eq_of_lt (by unfold UINT32_MOD; omega)
    rw [hmod]
    have hdiv : c * n / 128000 ≤ 1388662000 / 128000 := Nat.div_le_div_right hmul
    omega

/-- C4: `setup` derives the three runtime parameters exactly from the
12V/24V selector table (`7031/3516/721` for 12V, `8789/1758/726`
otherwise); when the calibration marker is present the two tick counts are
each passed through `apply_clock_calibration` (the `uint16_t` store never
truncates them, by `apply_clock_calibration_lt`), while the undervoltage
threshold is never calibrated; the feature flag is the feature selector.
Immutability after `setup` is structural in this embedding: `loopStep`
takes the configuration as a read-only value. -/
theorem setup_config_derivation (eeprom : Nat → Nat) (sel feat : Bool) :
    (setup eeprom sel feat).1.undervoltage_adc_threshold =
      (if sel = true then 721 else 726) ∧
    (setup eeprom sel feat).1.timing_cycles_load_on =
      (if clock_calibration_present eeprom then
        apply_clock_calibration (read_clock_calibration eeprom)
          (if sel = true then 7031 else 8789)
      else if sel = true then 7031 else 8789) ∧
    (setup eeprom sel feat).1.timing_cycles_load_off =
      (if clock_calibration_present eeprom then
        apply_clock_calibration (read_clock_calibration eeprom)
          (if sel = true then 3516 else 1758)
      else if sel = true then 3516 else 1758) ∧
    (setup eeprom sel feat).1.all_features_activated = feat := by
  have hON : apply_clock_calibration (read_clock_calibration eeprom)
      (if sel = true then 7031 else 8789) % UINT16_MOD =
      apply_clock_calibration (read_clock_calibration eeprom)
        (if sel = true then 7031 else 8789) := by
    apply Nat.mod_eq_of_lt
    apply apply_clock_calibration_lt
    rcases sel <;> norm_num
  have hOFF : apply_clock_calibration (read_clock_calibration eeprom)
      (if sel = true then 3516 else 1758) % UINT16_MOD =
      apply_clock_calibration (read_clock_calibration eeprom)
        (if sel = true then 3516 else 1758) := by
    apply Nat.mod_eq_of_lt
    apply apply_clock_calibration_lt
    rcases sel <;> norm_num
  unfold setup
  by_cases hp : clock_calibration_present eeprom <;>
    simp [hp, hON, hOFF, TIMING_CYCLES_LOAD_ON_12V, TIMING_CYCLES_LOAD_ON_24V,
      TIMING_CYCLES_LOAD_OFF_12V, TIMING_CYCLES_LOAD_OFF_24V,
      ADC_BATTERY_THRESHOLD_12v, ADC_BATTERY_THRESHOLD_24v]

/-! ### C5: battery sampling cadence -/

/-- C5: the sampling counter increments once per tick (mod `2^16`); the
iteration starting from `s` invokes `read_battery_voltage` exactly when the
load is enabled and the incremented counter has reached 110; and when it
does, the counter is reset to 0 already inside the measurement branch —
before the sample value `x` is even compared — and is still 0 after the
whole iteration, whatever `x` is; on non-sampling ticks it keeps the
incremented value. -/
theorem battery_sampling_cadence (cfg : Config) (x : Nat) (s : SystemState) :
    ((tick_counters s).wakeup_count_undervoltage_protection =
      (s.wakeup_count_undervoltage_protection + 1) % UINT16_MOD) ∧
    (invokes_battery_read s =
      (s.load_enabled &&
        decide ((s.wakeup_count_undervoltage_protection + 1) % UINT16_MOD ≥
          TIMING_CYCLES_BATTERY_MEASUREMENT))) ∧
    (invokes_battery_read s = true →
      (undervoltage_guard cfg x (tick_counters s)).wakeup_count_undervoltage_protection
          = 0 ∧
        (loopStep cfg x s).wakeup_count_undervoltage_protection = 0) ∧
    (invokes_battery_read s = false →
      (loopStep cfg x s).wakeup_count_undervoltage_protection =
        (s.wakeup_count_undervoltage_protection + 1) % UINT16_MOD) := by
  refine ⟨rfl, rfl, ?_, ?_⟩
  · intro hdue
    unfold invokes_battery_read at hdue
    have hguard :
        (undervoltage_guard cfg x (tick_counters s)).wakeup_count_undervoltage_protection
          = 0 := by
      rw [undervoltage_guard_eq, hdue]
      split_ifs <;> first | rfl | simp_all
    refine ⟨hguard, ?_⟩
    rw [loopStep_eq]
    split_ifs
    · rw [duty_count_uv, hguard]
    · exact hguard
  · intro hskip
    unfold invokes_battery_read at hskip
    have hguard : undervoltage_guard cfg x (tick_counters s) = tick_counters s := by
      rw [undervoltage_guard_eq, hskip]
      simp
    rw [loopStep_eq, hguard]
    split_ifs
    · rw [duty_count_uv]
      rfl
    · rfl

/-- Witness for C5 at a concrete state one tick before the 110-tick cadence
fires, with a non-breaching sample. -/
theorem battery_sampling_cadence_witness :
    invokes_battery_read ⟨0, 109, false, STATE_LOAD_ON, true⟩ = true ∧
      (loopStep cfgV12 1023 ⟨0, 109, false, STATE_LOAD_ON, true⟩).wakeup_count_undervoltage_protection = 0 :=
  ⟨by decide,
    ((battery_sampling_cadence cfgV12 1023 ⟨0, 109, false, STATE_LOAD_ON, true⟩).2.2.1
      (by decide)).2⟩

/-! ### C1: the undervoltage latch is one-way -/

/-- C1: on a tick whose measurement fires (load on, cadence reached) with an
averaged sample strictly below the threshold, the iteration sets the latch
and disables the load; and from then on — for any sequence of later sample
values whatsoever — the latch stays set and the load stays off on every
subsequent tick. -/
theorem undervoltage_latch_one_way (cfg : Config) (x : Nat) (samples : List Nat)
    (s : SystemState)
    (hdue : battery_measurement_due (tick_counters s) = true)
    (hx : x < cfg.undervoltage_adc_threshold) :
    (loopStep cfg x s).undervoltage_protection_triggered = true ∧
      (loopStep cfg x s).load_enabled = false ∧
      (run cfg samples (loopStep cfg x s)).undervoltage_protection_triggered = true ∧
      (run cfg samples (loopStep cfg x s)).load_enabled = false := by
  have hstep := loopStep_breach cfg x s hdue hx
  have ht : (loopStep cfg x s).undervoltage_protection_triggered = true := by
    rw [hstep]
  have hl : (loopStep cfg x s).load_enabled = false := by
    rw [hstep]
  exact ⟨ht, hl, run_latched cfg samples (loopStep cfg x s) ht hl⟩

/-- Witness for C1: a 12V device one tick before the sampling cadence, a
breaching sample 0, then two later ticks with full-scale samples; the latch
and the load stay frozen. -/
theorem undervoltage_latch_one_way_witness :
    battery_measurement_due (tick_counters ⟨0, 109, false, STATE_LOAD_ON, true⟩) = true ∧
      0 < cfgV12.undervoltage_adc_threshold ∧
      (run cfgV12 [1023, 1023]
        (loopStep cfgV12 0 ⟨0, 109, false, STATE_LOAD_ON, true⟩)).undervoltage_protection_triggered = true ∧
      (run cfgV12 [1023, 1023]
        (loopStep cfgV12 0 ⟨0, 109, false, STATE_LOAD_ON, true⟩)).load_enabled = false := by
  refine ⟨by decide, by decide, ?_, ?_⟩
  · exact (undervoltage_latch_one_way cfgV12 0 [1023, 1023]
      ⟨0, 109, false, STATE_LOAD_ON, true⟩ (by decide) (by decide)).2.2.1
  · exact (undervoltage_latch_one_way cfgV12 0 [1023, 1023]
      ⟨0, 109, false, STATE_LOAD_ON, true⟩ (by decide) (by decide)).2.2.2

/-! ### C10: no ADC activity after the latch -/

/-- C10: from a latched state (load off), the measurement-branch guard —
the exact condition under which an iteration of `loop` calls
`read_battery_voltage` — is false on the next tick and on every later tick
of any continuation, so the latched system performs no further ADC
sampling. -/
theorem no_battery_read_after_latch (cfg : Config) (samples : List Nat)
    (s : SystemState)
    (ht : s.undervoltage_protection_triggered = true)
    (hl : s.load_enabled = false) :
    invokes_battery_read s = false ∧
      invokes_battery_read (run cfg samples s) = false := by
  have hrun := run_latched cfg samples s ht hl
  constructor
  · unfold invokes_battery_read battery_measurement_due
    rw [tick_counters_load, hl]
    rfl
  · unfold invokes_battery_read battery_measurement_due
    rw [tick_counters_load, hrun.2]
    rfl

/-- Witness for C10 at a concrete latched state and a two-tick
continuation with full-scale samples. -/
theorem no_battery_read_after_latch_witness :
    invokes_battery_read ⟨17, 300, true, STATE_LOAD_ON, false⟩ = false ∧
      invokes_battery_read
        (run cfgV12 [1023, 1023] ⟨17, 300, true, STATE_LOAD_ON, false⟩) = false :=
  no_battery_read_after_latch cfgV12 [1023, 1023]
    ⟨17, 300, true, STATE_LOAD_ON, false⟩ rfl rfl

/-! ### C6: undervoltage-only feature mode -/

/-- With a non-breaching sample the guard can only reset its counter: load,
latch and the other fields are unchanged. -/
lemma loopStep_no_duty (cfg : Config) (x : Nat) (s : SystemState)
    (h : cfg.all_features_activated = false) :
    loopStep cfg x s = undervoltage_guard cfg x (tick_counters s) := by
  rw [loopStep_eq]
  simp [load_timing_activated, h]

/-- C6: when the feature selector resolves to undervoltage-only
(`all_features_activated = false`), the duty-cycle block of `loop` never
executes: every iteration is exactly the guard after the counter ticks, the
duty state tag never changes, the load is never switched on, a switch-off
can only come from a due measurement with a breaching sample, and from
startup the load stays on as long as every sample that gets taken is at or
above the threshold. -/
theorem undervoltage_only_mode (cfg : Config) (x : Nat) (s : SystemState)
    (samples : List Nat)
    (h : cfg.all_features_activated = false) :
    (loopStep cfg x s = undervoltage_guard cfg x (tick_counters s)) ∧
      ((loopStep cfg x s).wake_state = s.wake_state) ∧
      (s.load_enabled = false → (loopStep cfg x s).load_enabled = false) ∧
      (s.load_enabled = true → (loopStep cfg x s).load_enabled = false →
        invokes_battery_read s = true ∧ x < cfg.undervoltage_adc_threshold) ∧
      ((∀ y ∈ samples, cfg.undervoltage_adc_threshold ≤ y) →
        (run cfg samples initState).load_enabled = true) := by
  have hstep := loopStep_no_duty cfg x s h
  refine ⟨hstep, ?_, ?_, ?_, ?_⟩
  · rw [hstep, guard_wake, tick_counters_wake]
  · intro hl
    rw [hstep, undervoltage_guard_eq]
    simp [battery_measurement_due, tick_counters_load, hl]
  · intro hl hl2
    rw [hstep, undervoltage_guard_eq] at hl2
    unfold invokes_battery_read
    by_cases hdue : battery_measurement_due (tick_counters s) = true
    · refine ⟨hdue, ?_⟩
      rw [hdue] at hl2
      by_cases hx : x < cfg.undervoltage_adc_threshold
      · exact hx
      · simp [hx, tick_counters_load, hl] at hl2
    · rw [if_neg (by simp_all)] at hl2
      rw [tick_counters_load, hl] at hl2
      cases hl2
  · intro hsamp
    have key : ∀ (l : List Nat) (t : SystemState),
        (∀ y ∈ l, cfg.undervoltage_adc_threshold ≤ y) → t.load_enabled = true →
        (run cfg l t).load_enabled = true := by
      intro l
      induction l with
      | nil => intro t _ hload; exact hload
      | cons y ys ih =>
          intro t hall hload
          show (run cfg ys (loopStep cfg y t)).load_enabled = true
          apply ih
          · intro z hz; exact hall z (List.mem_cons_of_mem y hz)
          · rw [loopStep_no_duty cfg y t h]
            rw [(guard_no_breach cfg y (tick_counters t)
                (hall y (List.mem_cons_self y ys))).1]
            rw [tick_counters_load, hload]
    exact key samples initState hsamp rfl

/-- Witness for C6: undervoltage-only configuration, three non-breaching
ticks from startup keep the load on; and the single-step conjuncts at a
concrete state. -/
theorem undervoltage_only_mode_witness :
    (run ⟨false, 7031, 3516, 721⟩ [1023, 900, 721] initState).load_enabled = true :=
  (undervoltage_only_mode ⟨false, 7031, 3516, 721⟩ 1023 initState [1023, 900, 721]
    rfl).2.2.2.2 (by decide)

/-! ### C2: the duty-cycle state machine -/

lemma uvRun_lt (k : Nat) : uvRun k < TIMING_CYCLES_BATTERY_MEASUREMENT := by
  induction k with
  | zero => decide
  | succ m ih =>
      show uvNext (uvRun m) < TIMING_CYCLES_BATTERY_MEASUREMENT
      simp only [uvNext, TIMING_CYCLES_BATTERY_MEASUREMENT, UINT16_MOD] at ih ⊢
      split <;> omega

lemma tick_counters_mk (c u : Nat) (b : Bool) (w : Nat) (l : Bool) :
    tick_counters ⟨c, u, b, w, l⟩ =
      ⟨(c + 1) % UINT16_MOD, (u + 1) % UINT16_MOD, b, w, l⟩ := rfl

/-- A tick in the ON phase that does not reach `ticks_on`: the duty counter
advances, the sampling counter follows its cadence, everything else stays. -/
lemma loopStep_on_stay (cfg : Config) (x c u : Nat)
    (hth : cfg.undervoltage_adc_threshold ≤ x)
    (hf : cfg.all_features_activated = true)
    (hc : (c + 1) % UINT16_MOD < cfg.timing_cycles_load_on) :
    loopStep cfg x ⟨c, u, false, STATE_LOAD_ON, true⟩ =
      ⟨(c + 1) % UINT16_MOD, uvNext u, false, STATE_LOAD_ON, true⟩ := by
  rw [loopStep_eq, tick_counters_mk, undervoltage_guard_eq]
  simp only [UINT16_MOD] at hc
  simp only [battery_measurement_due, load_timing_activated, duty_cycle_step, uvNext,
    UINT16_MOD, TIMING_CYCLES_BATTERY_MEASUREMENT, Bool.true_and, Bool.false_and,
    decide_eq_true_eq, hf]
  split_ifs <;> first | rfl | (exfalso ; simp_all <;> omega)

/-- The tick in the ON phase on which the duty counter reaches `ticks_on`:
the counter resets, the load switches off, the tag moves to
`STATE_LOAD_OFF`. -/
lemma loopStep_on_fire (cfg : Config) (x c u : Nat)
    (hth : cfg.undervoltage_adc_threshold ≤ x)
    (hf : cfg.all_features_activated = true)
    (hc : (c + 1) % UINT16_MOD ≥ cfg.timing_cycles_load_on) :
    loopStep cfg x ⟨c, u, false, STATE_LOAD_ON, true⟩ =
      ⟨0, uvNext u, false, STATE_LOAD_OFF, false⟩ := by
  rw [loopStep_eq, tick_counters_mk, undervoltage_guard_eq]
  simp only [UINT16_MOD] at hc
  simp only [battery_measurement_due, load_timing_activated, duty_cycle_step, uvNext,
    UINT16_MOD, TIMING_CYCLES_BATTERY_MEASUREMENT, Bool.true_and, Bool.false_and,
    decide_eq_true_eq, hf]
  split_ifs <;> first | rfl | (exfalso ; simp_all <;> omega)

/-- A tick in the OFF phase that does not reach `ticks_off`: the load is
off, so the measurement branch is skipped whatever the sample is. -/
lemma loopStep_off_stay (cfg : Config) (x c u : Nat)
    (hf : cfg.all_features_activated = true)
    (hc : (c + 1) % UINT16_MOD < cfg.timing_cycles_load_off) :
    loopStep cfg x ⟨c, u, false, STATE_LOAD_OFF, false⟩ =
      ⟨(c + 1) % UINT16_MOD, (u + 1) % UINT16_MOD, false, STATE_LOAD_OFF, false⟩ := by
  rw [loopStep_eq, tick_counters_mk, undervoltage_guard_eq]
  simp only [UINT16_MOD] at hc
  simp only [battery_measurement_due, load_timing_activated, duty_cycle_step,
    STATE_LOAD_ON, STATE_LOAD_OFF, UINT16_MOD, TIMING_CYCLES_BATTERY_MEASUREMENT,
    Bool.true_and, Bool.false_and, decide_eq_true_eq, hf]
  split_ifs <;> first | rfl | (exfalso ; simp_all <;> omega)

/-- The tick in the OFF phase on which the duty counter reaches
`ticks_off`: the counter resets, the load switches on, the tag moves back
to `STATE_LOAD_ON`. -/
lemma loopStep_off_fire (cfg : Config) (x c u : Nat)
    (hf : cfg.all_features_activated = true)
    (hc : (c + 1) % UINT16_MOD ≥ cfg.timing_cycles_load_off) :
    loopStep cfg x ⟨c, u, false, STATE_LOAD_OFF, false⟩ =
      ⟨0, (u + 1) % UINT16_MOD, false, STATE_LOAD_ON, true⟩ := by
  rw [loopStep_eq, tick_counters_mk, undervoltage_guard_eq]
  simp only [UINT16_MOD] at hc
  simp only [battery_measurement_due, load_timing_activated, duty_cycle_step,
    STATE_LOAD_ON, STATE_LOAD_OFF, UINT16_MOD, TIMING_CYCLES_BATTERY_MEASUREMENT,
    Bool.true_and, Bool.false_and, decide_eq_true_eq, hf]
  split_ifs <;> first | rfl | (exfalso ; simp_all <;> omega)

/-- First 7030 ticks of the V12 full-feature run with non-breaching
samples: the system stays in the ON phase with the duty counter equal to
the tick number. -/
lemma v12_phase_on (k : Nat) (hk : k ≤ 7030) :
    runN cfgV12 1023 k initState = ⟨k, uvRun k, false, STATE_LOAD_ON, true⟩ := by
  induction k with
  | zero => rfl
  | succ m ih =>
      have hm : m ≤ 7030 := by omega
      show loopStep cfgV12 1023 (runN cfgV12 1023 m initState) = _
      rw [ih hm]
      rw [loopStep_on_stay cfgV12 1023 m (uvRun m) (by decide) rfl
        (by show (m + 1) % UINT16_MOD < 7031; unfold UINT16_MOD; omega)]
      have : (m + 1) % UINT16_MOD = m + 1 := by unfold UINT16_MOD; omega
      rw [this]
      rfl

/-- Tick 7031 of the V12 run: the duty counter reaches `ticks_on = 7031`,
so the load switches off. -/
lemma v12_switch_off :
    runN cfgV12 1023 7031 initState = ⟨0, uvRun 7031, false, STATE_LOAD_OFF, false⟩ := by
  show loopStep cfgV12 1023 (runN cfgV12 1023 7030 initState) = _
  rw [v12_phase_on 7030 (by omega)]
  rw [loopStep_on_fire cfgV12 1023 7030 (uvRun 7030) (by decide) rfl
    (by show (7030 + 1) % UINT16_MOD ≥ 7031; unfold UINT16_MOD; omega)]
  rfl

/-- Ticks 7031 .. 7031+3515 of the V12 run: the OFF phase, with the duty
counter equal to the number of ticks since the switch-off. -/
lemma v12_phase_off (k : Nat) (hk : k ≤ 3515) :
    runN cfgV12 1023 (7031 + k) initState =
      ⟨k, uvRun 7031 + k, false, STATE_LOAD_OFF, false⟩ := by
  induction k with
  | zero =>
      rw [Nat.add_zero, Nat.add_zero]
      exact v12_switch_off
  | succ m ih =>
      have hm : m ≤ 3515 := by omega
      have huv := uvRun_lt 7031
      show loopStep cfgV12 1023 (runN cfgV12 1023 (7031 + m) initState) = _
      rw [ih hm]
      rw [loopStep_off_stay cfgV12 1023 m (uvRun 7031 + m) rfl
        (by show (m + 1) % UINT16_MOD < 3516; unfold UINT16_MOD; omega)]
      have h1 : (m + 1) % UINT16_MOD = m + 1 := by unfold UINT16_MOD; omega
      have h2 : (uvRun 7031 + m + 1) % UINT16_MOD = uvRun 7031 + (m + 1) := by
        unfold UINT16_MOD
        unfold TIMING_CYCLES_BATTERY_MEASUREMENT at huv
        omega
      rw [h1, h2]

/-- Tick 7031+3516 of the V12 run: the duty counter reaches
`ticks_off = 3516`, so the load switches back on. -/
lemma v12_switch_on :
    (runN cfgV12 1023 (7031 + 3516) initState).load_enabled = true ∧
      (runN cfgV12 1023 (7031 + 3516) initState).wake_state = STATE_LOAD_ON := by
  have huv := uvRun_lt 7031
  have : runN cfgV12 1023 (7031 + 3516) initState =
      loopStep cfgV12 1023 (runN cfgV12 1023 (7031 + 3515) initState) := rfl
  rw [this, v12_phase_off 3515 (by omega)]
  rw [loopStep_off_fire cfgV12 1023 3515 (uvRun 7031 + 3515) rfl
    (by show (3515 + 1) % UINT16_MOD ≥ 3516; unfold UINT16_MOD; omega)]
  exact ⟨rfl, rfl⟩

/-- C2: with the full feature set and the latch clear after the sampling
branch, an iteration of `loop` is exactly one step of the duty-cycle
machine on the post-measurement state; that step obeys the four claimed
transition rules verbatim (reset / switch / tag move on reaching the
threshold, identity otherwise); and end-to-end, the uncalibrated V12
configuration started in `STATE_LOAD_ON` with counter 0 (and non-breaching
samples) keeps the load on through tick 7030, first switches it off on tick
7031, keeps it off for the following 3515 ticks, and switches it back on
exactly 3516 ticks after the switch-off. -/
theorem duty_cycle_transitions :
    (∀ (cfg : Config) (x : Nat) (s : SystemState),
      load_timing_activated cfg = true →
      (undervoltage_guard cfg x (tick_counters s)).undervoltage_protection_triggered
        = false →
      loopStep cfg x s = duty_cycle_step cfg (undervoltage_guard cfg x (tick_counters s))) ∧
    (∀ (cfg : Config) (s : SystemState), s.wake_state = STATE_LOAD_ON →
      s.wakeup_count_load_feature ≥ cfg.timing_cycles_load_on →
      duty_cycle_step cfg s =
        { s with
          wakeup_count_load_feature := 0
          wake_state := STATE_LOAD_OFF
          load_enabled := false }) ∧
    (∀ (cfg : Config) (s : SystemState), s.wake_state = STATE_LOAD_ON →
      s.wakeup_count_load_feature < cfg.timing_cycles_load_on →
      duty_cycle_step cfg s = s) ∧
    (∀ (cfg : Config) (s : SystemState), s.wake_state = STATE_LOAD_OFF →
      s.wakeup_count_load_feature ≥ cfg.timing_cycles_load_off →
      duty_cycle_step cfg s =
        { s with
          wakeup_count_load_feature := 0
          wake_state := STATE_LOAD_ON
          load_enabled := true }) ∧
    (∀ (cfg : Config) (s : SystemState), s.wake_state = STATE_LOAD_OFF →
      s.wakeup_count_load_feature < cfg.timing_cycles_load_off →
      duty_cycle_step cfg s = s) ∧
    (∀ k, k ≤ 7030 → (runN cfgV12 1023 k initState).load_enabled = true ∧
      (runN cfgV12 1023 k initState).wake_state = STATE_LOAD_ON) ∧
    ((runN cfgV12 1023 7031 initState).load_enabled = false ∧
      (runN cfgV12 1023 7031 initState).wake_state = STATE_LOAD_OFF) ∧
    (∀ k, k ≤ 3515 → (runN cfgV12 1023 (7031 + k) initState).load_enabled = false) ∧
    ((runN cfgV12 1023 (7031 + 3516) initState).load_enabled = true ∧
      (runN cfgV12 1023 (7031 + 3516) initState).wake_state = STATE_LOAD_ON) := by
  refine ⟨?_, ?_, ?_, ?_, ?_, ?_, ?_, ?_, v12_switch_on⟩
  · intro cfg x s hf htr
    rw [loopStep_eq, htr]
    simp [hf]
  · intro cfg s hw hc
    unfold duty_cycle_step
    rw [hw]
    simp [hc]
  · intro cfg s hw hc
    unfold duty_cycle_step
    rw [hw]
    simp [Nat.not_le.mpr hc]
  · intro cfg s hw hc
    unfold duty_cycle_step
    rw [hw]
    have : STATE_LOAD_OFF ≠ STATE_LOAD_ON := by decide
    simp [this, hc]
  · intro cfg s hw hc
    unfold duty_cycle_step
    rw [hw]
    have : STATE_LOAD_OFF ≠ STATE_LOAD_ON := by decide
    simp [this, Nat.not_le.mpr hc]
  · intro k hk
    rw [v12_phase_on k hk]
    exact ⟨rfl, rfl⟩
  · rw [v12_switch_off]
    exact ⟨rfl, rfl⟩
  · intro k hk
    rw [v12_phase_off k hk]

/-- Witness for C2: the switch-off rule of the duty machine at a concrete
state with the counter exactly at the V12 threshold, and the end-to-end run
evaluated at tick 5. -/
theorem duty_cycle_transitions_witness :
    duty_cycle_step cfgV12 ⟨7031, 9, false, STATE_LOAD_ON, true⟩ =
        ⟨0, 9, false, STATE_LOAD_OFF, false⟩ ∧
      (runN cfgV12 1023 5 initState).load_enabled = true :=
  ⟨duty_cycle_transitions.2.1 cfgV12 ⟨7031, 9, false, STATE_LOAD_ON, true⟩ rfl
      (by decide),
    (duty_cycle_transitions.2.2.2.2.2.1 5 (by decide)).1⟩

/-! ### C9: the duty state tag agrees with the actuator until the latch -/

lemma tag_matches_load_guard (cfg : Config) (x : Nat) (s : SystemState)
    (h : tag_matches_load s) :
    tag_matches_load (undervoltage_guard cfg x (tick_counters s)) := by
  intro htr
  obtain ⟨hst, hload⟩ := guard_untriggered cfg x (tick_counters s) htr
  rw [tick_counters_trig] at hst
  rw [guard_wake, tick_counters_wake, hload, tick_counters_load]
  exact h hst

lemma tag_matches_load_duty (cfg : Config) (t : SystemState)
    (h : tag_matches_load t) (htr : t.undervoltage_protection_triggered = false) :
    tag_matches_load (duty_cycle_step cfg t) := by
  have hiff := h htr
  intro _
  unfold duty_cycle_step
  split_ifs with w1 c1 w2 c2 <;>
    simp_all [STATE_LOAD_ON, STATE_LOAD_OFF]

lemma tag_matches_load_step (cfg : Config) (x : Nat) (s : SystemState)
    (h : tag_matches_load s) : tag_matches_load (loopStep cfg x s) := by
  rw [loopStep_eq]
  split_ifs with hg
  · have htr :
        (undervoltage_guard cfg x (tick_counters s)).undervoltage_protection_triggered
          = false := by
      cases h2 :
        (undervoltage_guard cfg x (tick_counters s)).undervoltage_protection_triggered
      · rfl
      · rw [h2] at hg
        simp at hg
    exact tag_matches_load_duty cfg _ (tag_matches_load_guard cfg x s h) htr
  · exact tag_matches_load_guard cfg x s h

lemma tag_matches_load_run (cfg : Config) (samples : List Nat) (s : SystemState)
    (h : tag_matches_load s) : tag_matches_load (run cfg samples s) := by
  induction samples generalizing s with
  | nil => exact h
  | cons y ys ih => exact ih (loopStep cfg y s) (tag_matches_load_step cfg y s h)

/-- C9: at boot both the duty state tag and the actuator are ON, and at
every later tick boundary of every execution — any configuration, any
sample sequence — as long as the latch is still clear, the tag reads
`STATE_LOAD_ON` exactly when the load output is enabled; the two can
diverge only once the latch is set. -/
theorem wake_tag_matches_actuator (cfg : Config) (samples : List Nat) :
    (initState.wake_state = STATE_LOAD_ON ∧ initState.load_enabled = true) ∧
      ((run cfg samples initState).undervoltage_protection_triggered = false →
        ((run cfg samples initState).wake_state = STATE_LOAD_ON ↔
          (run cfg samples initState).load_enabled = true)) := by
  refine ⟨⟨rfl, rfl⟩, ?_⟩
  refine tag_matches_load_run cfg samples initState ?_
  intro _
  simp [initState]

/-- Witness for C9 on the V12 configuration after one non-breaching tick. -/
theorem wake_tag_matches_actuator_witness :
    (run cfgV12 [1023] initState).wake_state = STATE_LOAD_ON ↔
      (run cfgV12 [1023] initState).load_enabled = true :=
  (wake_tag_matches_actuator cfgV12 [1023]).2 (by decide)

end AttinyTimeSwitch
